import Mathlib

/-!
Shallow embedding of the Sapio webhook-server tutorial (`7_webhook_server.py`)
and a verification of its specification.

Modelling conventions:
* Python values that flow through the untyped user-response map are modelled
  by `PyValue`; a `dict.get` miss is `Option.none`.
* A handler `run` that can raise a Python exception is modelled as
  `Except PyError SapioWebhookResult`; `.error e` means the exception `e`
  propagates out of the handler (uncaught).  Handlers whose `run` cannot
  raise are plain functions to `SapioWebhookResult`.
* Console printing (`print(...)`) has no observable effect on the returned
  result and is not modelled.
* Results of external platform services (record creation, accessioning,
  chart creation) that the handlers never read back into their returned
  result are supplied as plain context data and their effects are not
  tracked.
* Python's float division `a / s` of two nonnegative ints is modelled
  faithfully: `roundFloat a s` rounds the exact rational a/s to the nearest
  IEEE-754 binary64 value (round half to even, with subnormal and overflow
  handling), and `reprFloat` renders it the way CPython's `str`/`repr`
  does: the shortest correctly-rounded decimal string that reads back to
  the same double, in fixed notation for magnitudes in [1e-4, 1e16) and
  scientific notation otherwise.  Division by zero is the raised
  `ZeroDivisionError`.
-/

namespace SapioTutorial

/-- Values stored in a Python dict of form responses. -/
inductive PyValue where
  | pyNone : PyValue
  | pyBool : Bool → PyValue
  | pyStr : String → PyValue
deriving DecidableEq

/-- `m.get(k)` on a Python dict: the bound value, or `none` when absent. -/
def dictGet (m : List (String × PyValue)) (k : String) : Option PyValue :=
  m.lookup k

/-- Python truthiness of the result of `dict.get`: `None` and a missing key
are falsy, a bool is itself, a string is truthy iff nonempty. -/
def pyTruthy : Option PyValue → Bool
  | none => false
  | some PyValue.pyNone => false
  | some (PyValue.pyBool b) => b
  | some (PyValue.pyStr s) => !(s == "")

/-- Python `str(...)` applied to the result of `dict.get`. -/
def pyStrOf : Option PyValue → String
  | none => "None"
  | some PyValue.pyNone => "None"
  | some (PyValue.pyBool true) => "True"
  | some (PyValue.pyBool false) => "False"
  | some (PyValue.pyStr s) => s

deriving instance DecidableEq for Except

/-- Python exceptions that the tutorial handlers can let escape. -/
inductive PyError where
  | zeroDivisionError : PyError
  | attributeError : PyError
  | indexError : PyError
deriving DecidableEq

/- ### Data model (sapiopylib pojos used by the handlers) -/

structure DataRecord where
  record_id : Nat
deriving DecidableEq

structure ExperimentEntry where
  entry_id : Nat
  entry_name : String
deriving DecidableEq

structure ElnExperiment where
  notebook_experiment_id : Nat
  notebook_experiment_name : String
deriving DecidableEq

/-- One ordered unit of an ELN experiment: a step with a content type tag
and its associated records. -/
structure ElnEntryStep where
  data_type_name : String
  records : List DataRecord
deriving DecidableEq

def ElnEntryStep.get_records (step : ElnEntryStep) : List DataRecord :=
  step.records

/-- An experiment protocol: the ordered sequence of its steps. -/
structure ElnExperimentProtocol where
  steps : List ElnEntryStep
deriving DecidableEq

/-- Whether a step carries the given type tag. -/
def stepMatches (step : ElnEntryStep) (typeTag : String) : Bool :=
  step.data_type_name == typeTag

/-- Linear scan for the first step matching `typeTag`; `i` is the index of
the head of the remaining list in the full step sequence. -/
def findStepFrom : List ElnEntryStep → Nat → String → Option (Nat × ElnEntryStep)
  | [], _, _ => none
  | step :: rest, i, typeTag =>
    if stepMatches step typeTag = true then some (i, step)
    else findStepFrom rest (i + 1) typeTag

/-- Linear scan for the first step matching `typeTag` whose index is
strictly greater than `anchor`; `i` indexes the head of the remaining list. -/
def findStepAfter : List ElnEntryStep → Nat → Nat → String → Option (Nat × ElnEntryStep)
  | [], _, _, _ => none
  | step :: rest, i, anchor, typeTag =>
    if anchor < i ∧ stepMatches step typeTag = true then some (i, step)
    else findStepAfter rest (i + 1) anchor typeTag

/-- Modelled from the spec: `firstStepOfType(typeTag)` of the protocol
navigation helper (implemented in the sapiopylib library, not under this
repository's source): "linear forward scan, first match or none".  The
position of the returned step is returned alongside it. -/
def ElnExperimentProtocol.get_first_step_of_type
    (protocol : ElnExperimentProtocol) (typeTag : String) :
    Option (Nat × ElnEntryStep) :=
  findStepFrom protocol.steps 0 typeTag

/-- Modelled from the spec: `nextStepOfType(afterStep, typeTag)` of the
protocol navigation helper (implemented in the sapiopylib library, not
under this repository's source): "forward scan strictly after the position
of `afterStep`, first match or none; steps at or before `afterStep`'s
position are excluded even if they match the type".  The anchor step is
given by its position `anchor`. -/
def ElnExperimentProtocol.get_next_step
    (protocol : ElnExperimentProtocol) (anchor : Nat) (typeTag : String) :
    Option (Nat × ElnEntryStep) :=
  findStepAfter protocol.steps 0 anchor typeTag

/- ### Field definitions and the form dialog (used by UserFeedbackHandler) -/

inductive VeloxFieldType where
  | BOOLEAN : VeloxFieldType
  | STRING : VeloxFieldType
deriving DecidableEq

structure AbstractVeloxFieldDefinition where
  data_type_name : String
  field_type : VeloxFieldType
  data_field_name : String
  display_name : String
  required : Bool
  editable : Bool
  max_length : Option Nat
  default_value_bool : Option Bool
deriving DecidableEq

/-- `VeloxBooleanFieldDefinition(data_type_name, name, display, default_value=...)`:
a boolean field; `required` and `editable` default to false. -/
def VeloxBooleanFieldDefinition (dt fname display : String)
    (default_value : Option Bool) : AbstractVeloxFieldDefinition :=
  ⟨dt, VeloxFieldType.BOOLEAN, fname, display, false, false, none, default_value⟩

/-- `VeloxStringFieldDefinition(data_type_name, name, display, max_length=...)`:
a string field; `required` and `editable` default to false. -/
def VeloxStringFieldDefinition (dt fname display : String)
    (maxLen : Nat) : AbstractVeloxFieldDefinition :=
  ⟨dt, VeloxFieldType.STRING, fname, display, false, false, some maxLen, none⟩

structure TemporaryDataType where
  data_type_name : String
  fields : List AbstractVeloxFieldDefinition
deriving DecidableEq

/-- `FormBuilder()`: accumulates field definitions for a temporary data type. -/
structure FormBuilder where
  data_type_name : String
  fields : List AbstractVeloxFieldDefinition
deriving DecidableEq

def FormBuilder.new : FormBuilder := ⟨"Default", []⟩

def FormBuilder.get_data_type_name (b : FormBuilder) : String :=
  b.data_type_name

def FormBuilder.add_field (b : FormBuilder) (f : AbstractVeloxFieldDefinition) :
    FormBuilder :=
  ⟨b.data_type_name, b.fields ++ [f]⟩

def FormBuilder.get_temporary_data_type (b : FormBuilder) : TemporaryDataType :=
  ⟨b.data_type_name, b.fields⟩

/-- `FormEntryDialogRequest(title, message, data_type)`: the client callback
request describing a form dialog. -/
structure FormEntryDialogRequest where
  title : String
  message : String
  data_type : TemporaryDataType
deriving DecidableEq

/-- `FormEntryDialogResult`: the user's response to a form dialog. -/
structure FormEntryDialogResult where
  user_cancelled : Bool
  user_response_map : List (String × PyValue)
deriving DecidableEq

/- ### Context and result -/

/-- The per-invocation webhook context.  External service results that the
handlers consume are supplied as data (`accession_ids` is what the
accession manager returns in `ElnSampleCreationHandler`). -/
structure SapioWebhookContext where
  client_callback_result : Option FormEntryDialogResult
  active_protocol : Option ElnExperimentProtocol
  eln_experiment : Option ElnExperiment
  experiment_entry_list : List ExperimentEntry
  data_record : Option DataRecord
  accession_ids : List String
deriving DecidableEq

/-- `SapioWebhookResult(passed, client_callback_request=..., display_text=...)`. -/
structure SapioWebhookResult where
  passed : Bool
  client_callback_request : Option FormEntryDialogRequest
  display_text : Option String
deriving DecidableEq

/- ### IEEE-754 binary64 division and CPython float repr -/

/-- Recursion fuel for digit-count loops; far above the bit/digit counts
any intermediate value in this development can reach. -/
def repFuel : Nat := 4096

/-- Number of base-`base` digits of `n` (1 for `n = 0`), by fuelled
recursion so that it evaluates inside the kernel. -/
def natDigitCount (base : Nat) : Nat → Nat → Nat
  | 0, _ => 0
  | fuel + 1, n => if n < base then 1 else 1 + natDigitCount base fuel (n / base)

/-- Whether the rational `a / b` is at least `base ^ e`, by exact integer
comparison. -/
def gePowB (base a b : Nat) (e : Int) : Bool :=
  if 0 ≤ e then b * base ^ e.toNat ≤ a else b ≤ a * base ^ (-e).toNat

/-- The floor of the base-`base` logarithm of `a / b` (for `a, b ≥ 1`):
the unique `e` with `base ^ e ≤ a / b < base ^ (e + 1)`.  The digit-count
difference pins `e` to two candidates and one exact comparison decides. -/
def expB (base a b : Nat) : Int :=
  let e0 : Int := (natDigitCount base repFuel a : Int) -
    (natDigitCount base repFuel b : Int)
  if gePowB base a b e0 then e0 else e0 - 1

/-- Round the rational `num / den` to the nearest integer, ties to even. -/
def rndHalfEven (num den : Nat) : Nat :=
  let q := num / den
  let r := num % den
  if 2 * r < den then q
  else if den < 2 * r then q + 1
  else if q % 2 = 0 then q else q + 1

/-- A nonnegative IEEE-754 binary64 value: zero, infinity, or a finite
value `s * 2 ^ p` with significand `s` (`2^52 ≤ s < 2^53` when normal,
smaller when subnormal at `p = -1074`). -/
inductive PyFloat where
  | zero : PyFloat
  | inf : PyFloat
  | finite : Nat → Int → PyFloat
deriving DecidableEq

/-- Round the exact rational `a / b` to the nearest binary64 value (round
half to even), clamping the least-significant exponent at the subnormal
limit `2 ^ -1074` and overflowing to infinity at `2 ^ 1024`.  This is the
value CPython's float division `a / b` produces for nonnegative ints. -/
def roundFloat (a b : Nat) : PyFloat :=
  if a = 0 || b = 0 then PyFloat.zero
  else
    let e := expB 2 a b
    let p : Int := max (e - 52) (-1074)
    let s := if p ≤ 0 then rndHalfEven (a * 2 ^ (-p).toNat) b
             else rndHalfEven a (b * 2 ^ p.toNat)
    let s2 := if s = 2 ^ 53 then 2 ^ 52 else s
    let p2 := if s = 2 ^ 53 then p + 1 else p
    if s2 = 0 then PyFloat.zero
    else if 972 ≤ p2 && 2 ^ (1024 - p2).toNat ≤ s2 then PyFloat.inf
    else PyFloat.finite s2 p2

/-- The correctly rounded (half to even) `prec`-significant-digit decimal
approximation of the rational `a / b`: returns the digit block `d` (with
`10^(prec-1) ≤ d < 10^prec`) and the decimal exponent `E` of the leading
digit, renormalising when rounding carries into the next power of ten. -/
def decRound (a b : Nat) (prec : Nat) : Nat × Int :=
  let E := expB 10 a b
  let k : Int := E - prec + 1
  let d := if k ≤ 0 then rndHalfEven (a * 10 ^ (-k).toNat) b
           else rndHalfEven a (b * 10 ^ k.toNat)
  if d = 10 ^ prec then (10 ^ (prec - 1), E + 1) else (d, E)

/-- Read the decimal `d * 10 ^ k` back into the nearest binary64 value,
exactly as decimal-to-float conversion does. -/
def parseDecimal (d : Nat) (k : Int) : PyFloat :=
  if 0 ≤ k then roundFloat (d * 10 ^ k.toNat) 1 else roundFloat d (10 ^ (-k).toNat)

/-- Shortest-repr search: starting at `prec` significant digits, find the
first correctly rounded decimal for `a / b` that reads back to the finite
double `(s, p)`; 17 digits always suffice for binary64. -/
def shortestLoop (a b s : Nat) (p : Int) : Nat → Nat → Nat × Int
  | 0, prec => decRound a b prec
  | fuel + 1, prec =>
    let de := decRound a b prec
    if parseDecimal de.1 (de.2 - (prec : Int) + 1) = PyFloat.finite s p then de
    else shortestLoop a b s p fuel (prec + 1)

/-- Fixed-notation rendering of the digit block `D` (length `prec`) with
leading-digit exponent `E`: CPython style, always with a decimal point. -/
def formatFixed (D : List Char) (prec : Nat) (E : Int) : String :=
  if 0 ≤ E then
    let ip := E.toNat + 1
    if prec ≤ ip then String.mk (D ++ List.replicate (ip - prec) '0') ++ ".0"
    else String.mk (D.take ip) ++ "." ++ String.mk (D.drop ip)
  else "0." ++ String.mk (List.replicate ((-E).toNat - 1) '0' ++ D)

/-- Scientific-notation rendering, CPython style (`1e+16`, `1.5e-05`,
exponent written with a sign and at least two digits). -/
def formatSci (D : List Char) (E : Int) : String :=
  let mant := match D with
    | [] => "0"
    | c :: rest =>
      if rest.isEmpty then String.mk [c] else String.mk [c] ++ "." ++ String.mk rest
  let eAbs := (if 0 ≤ E then E else -E).toNat
  let eStr := if eAbs < 10 then "0" ++ toString eAbs else toString eAbs
  mant ++ "e" ++ (if 0 ≤ E then "+" else "-") ++ eStr

/-- CPython's choice of notation: fixed for magnitudes in [1e-4, 1e16),
scientific otherwise. -/
def formatDecimal (d prec : Nat) (E : Int) : String :=
  let D := (toString d).toList
  if -4 ≤ E && E < 16 then formatFixed D prec E else formatSci D E

/-- CPython `str`/`repr` of a nonnegative float: the shortest correctly
rounded decimal string that reads back to the same double. -/
def reprFloat : PyFloat → String
  | PyFloat.zero => "0.0"
  | PyFloat.inf => "inf"
  | PyFloat.finite s p =>
    let a := if 0 ≤ p then s * 2 ^ p.toNat else s
    let b := if 0 ≤ p then 1 else 2 ^ (-p).toNat
    let de := shortestLoop a b s p 17 1
    formatDecimal de.1 (natDigitCount 10 repFuel de.1) de.2

/-- `str(m / n)` for Python float division of nonnegative ints: round the
exact quotient to the nearest binary64, then render it CPython-style. -/
def pyFloatStr (m n : Nat) : String := reprFloat (roundFloat m n)

/-- The natural number a digit list denotes. -/
def natOfDigits (l : List Char) : Nat :=
  l.foldl (fun acc c => acc * 10 + (c.toNat - 48)) 0

/-- Split a character list at the first dot, when present. -/
def splitDot : List Char → List Char × Option (List Char)
  | [] => ([], none)
  | c :: rest =>
    if c = '.' then ([], some rest)
    else
      let sp := splitDot rest
      (c :: sp.1, sp.2)

/-- The rational a fixed-notation decimal string denotes, as a pair
(numerator, power-of-ten denominator); `none` for anything that is not a
plain `digits` or `digits.digits` string.  Used to state what value a
displayed ratio string encodes. -/
def decodeDecimal (s : String) : Option (Nat × Nat) :=
  match splitDot s.toList with
  | (ip, some fp) =>
    if ip.all Char.isDigit && fp.all Char.isDigit && !ip.isEmpty && !fp.isEmpty then
      some (natOfDigits (ip ++ fp), 10 ^ fp.length)
    else none
  | (ip, none) =>
    if ip.all Char.isDigit && !ip.isEmpty then some (natOfDigits ip, 1) else none

/- ### The handlers -/

/-- `HelloWorldWebhookHandler.run`: prints and returns `SapioWebhookResult(True)`. -/
def HelloWorldWebhookHandler.run (context : SapioWebhookContext) :
    SapioWebhookResult :=
  ⟨true, none, none⟩

/-- `UserFeedbackHandler.run`: round 2 parses the form result (cancel check
first, then the `Feeling`/`Comments` responses); round 1 builds the feedback
form and requests the dialog. -/
def UserFeedbackHandler.run (context : SapioWebhookContext) :
    SapioWebhookResult :=
  match context.client_callback_result with
  | some form_result =>
    if !form_result.user_cancelled then
      let response_map := form_result.user_response_map
      let feeling : Bool := pyTruthy (dictGet response_map "Feeling")
      let comments : Option PyValue := dictGet response_map "Comments"
      let msg : String :=
        if feeling then "User felt very good! Nothing to do here..."
        else "=_= User didn\x27t feel very good. The comment left was: " ++
          pyStrOf comments
      ⟨true, none, some msg⟩
    else
      ⟨true, none, some "You have Cancelled!"⟩
  | none =>
    let form_builder := FormBuilder.new
    let feeling_field :=
      VeloxBooleanFieldDefinition (form_builder.get_data_type_name) "Feeling"
        "Are you feeling well?" (some false)
    let feeling_field := { feeling_field with required := true, editable := true }
    let form_builder := form_builder.add_field feeling_field
    let comments_field :=
      VeloxStringFieldDefinition (form_builder.get_data_type_name) "Comments"
        "Additional Comments" 2000
    let comments_field := { comments_field with editable := true }
    let form_builder := form_builder.add_field comments_field
    let temp_dt := form_builder.get_temporary_data_type
    let request : FormEntryDialogRequest :=
      ⟨"Feedback", "Please provide us with some feedback!", temp_dt⟩
    ⟨true, some request, none⟩

/-- `NewGooOnSaveRuleHandler.run`: prints the record and returns a toast. -/
def NewGooOnSaveRuleHandler.run (context : SapioWebhookContext) :
    SapioWebhookResult :=
  ⟨true, none, some "New Goo!"⟩

/-- `ExperimentRuleHandler.run`: reads `context.eln_experiment` attributes
(raising `AttributeError` when it is `None`), indexes
`context.experiment_entry_list[0]` (raising `IndexError` when empty),
prints the record values and returns `SapioWebhookResult(True)`. -/
def ExperimentRuleHandler.run (context : SapioWebhookContext) :
    Except PyError SapioWebhookResult :=
  match context.eln_experiment with
  | none => Except.error PyError.attributeError
  | some _ =>
    match context.experiment_entry_list with
    | [] => Except.error PyError.indexError
    | _ :: _ => Except.ok ⟨true, none, none⟩

/-- `ElnSampleAliquotRatioCountHandler.run`: finds the source Sample step,
counts its records, finds the next Sample step strictly after it, counts its
records, and reports the aliquot/source ratio.  The division
`aliquot_sample_record_count / source_sample_record_count` is performed
unguarded, so a zero source count raises `ZeroDivisionError`. -/
def ElnSampleAliquotRatioCountHandler.run (context : SapioWebhookContext) :
    Except PyError SapioWebhookResult :=
  match context.active_protocol with
  | none => Except.error PyError.attributeError
  | some active_protocol =>
    match active_protocol.get_first_step_of_type "Sample" with
    | none => Except.ok ⟨true, none, some "There are no source sample table."⟩
    | some (sample_step_index, sample_step) =>
      let source_sample_record_count := sample_step.get_records.length
      match active_protocol.get_next_step sample_step_index "Sample" with
      | none => Except.ok ⟨true, none, some "There are no aliquot sample table."⟩
      | some (_, aliquot_step) =>
        let aliquot_sample_record_count := aliquot_step.get_records.length
        if source_sample_record_count = 0 then
          Except.error PyError.zeroDivisionError
        else
          Except.ok ⟨true, none, some ("The aliquot to sample ratio is: " ++
            pyFloatStr aliquot_sample_record_count source_sample_record_count)⟩

/-- `ElnStepCreationHandler.run`: creates a request record and three new
steps through external services (effects not tracked), then returns
`SapioWebhookResult(True)`; a missing active protocol raises. -/
def ElnStepCreationHandler.run (context : SapioWebhookContext) :
    Except PyError SapioWebhookResult :=
  match context.active_protocol with
  | none => Except.error PyError.attributeError
  | some _ => Except.ok ⟨true, none, none⟩

/-- The per-sample field maps built by `ElnSampleCreationHandler`. -/
def sampleFieldsFor (sample_id_list : List String) :
    List (List (String × PyValue)) :=
  sample_id_list.map fun sample_id =>
    [("ExemplarSampleType", PyValue.pyStr "Blood"),
     ("SampleId", PyValue.pyStr sample_id)]

/-- `ElnSampleCreationHandler.run`: finds or creates the Sample step, builds
field maps for the accessioned sample ids, adds the records through external
services (effects not tracked) and returns `SapioWebhookResult(True)`. -/
def ElnSampleCreationHandler.run (context : SapioWebhookContext) :
    Except PyError SapioWebhookResult :=
  match context.active_protocol with
  | none => Except.error PyError.attributeError
  | some active_protocol =>
    let sample_step :=
      match active_protocol.get_first_step_of_type "Sample" with
      | some (_, s) => s
      | none => ElnEntryStep.mk "Sample" []
    let sample_fields := sampleFieldsFor context.accession_ids
    let _ := sample_step
    let _ := sample_fields
    Except.ok ⟨true, none, none⟩

/-- `BarChartDashboardCreationHandler.run`: reports when no Sample step
exists, otherwise creates the bar chart through an external service (effect
not tracked) and returns `SapioWebhookResult(True)`. -/
def BarChartDashboardCreationHandler.run (context : SapioWebhookContext) :
    Except PyError SapioWebhookResult :=
  match context.active_protocol with
  | none => Except.error PyError.attributeError
  | some active_protocol =>
    match active_protocol.get_first_step_of_type "Sample" with
    | none =>
      Except.ok ⟨true, none, some "There are no sample step. Create it first."⟩
    | some _ => Except.ok ⟨true, none, none⟩

/- ### Route registry -/

/-- The handler classes registered by the tutorial. -/
inductive HandlerType where
  | helloWorldWebhookHandler : HandlerType
  | userFeedbackHandler : HandlerType
  | newGooOnSaveRuleHandler : HandlerType
  | experimentRuleHandler : HandlerType
  | elnSampleAliquotRatioCountHandler : HandlerType
  | elnStepCreationHandler : HandlerType
  | elnSampleCreationHandler : HandlerType
  | barChartDashboardCreationHandler : HandlerType
deriving DecidableEq

inductive RegistryError where
  | duplicatePathError : RegistryError
  | unknownRouteError : RegistryError
deriving DecidableEq

/-- `WebhookConfiguration(verify_sapio_cert=..., debug=...)` plus its route
table built by `register` calls. -/
structure WebhookConfiguration where
  verify_sapio_cert : Bool
  debug : Bool
  routes : List (String × HandlerType)
deriving DecidableEq

/-- Modelled from the spec: `register(path, handlerType)` of the route
registry (implemented in the sapiopylib library, not under this repository's
source): "fails with `DuplicatePathError` if path already bound", otherwise
binds the path. -/
def WebhookConfiguration.register (config : WebhookConfiguration)
    (path : String) (handler : HandlerType) :
    Except RegistryError WebhookConfiguration :=
  if (config.routes.lookup path).isSome then
    Except.error RegistryError.duplicatePathError
  else
    Except.ok ⟨config.verify_sapio_cert, config.debug,
      config.routes ++ [(path, handler)]⟩

/-- Modelled from the spec: `resolve(path) -> handlerType` of the route
registry / dispatcher (implemented in the sapiopylib library, not under this
repository's source): "fails with `UnknownRouteError` if absent". -/
def WebhookConfiguration.resolve (config : WebhookConfiguration)
    (path : String) : Except RegistryError HandlerType :=
  match config.routes.lookup path with
  | some handler => Except.ok handler
  | none => Except.error RegistryError.unknownRouteError

/-- The fixed route table of the tutorial, built by the startup `register`
calls on `WebhookConfiguration(verify_sapio_cert=False, debug=True)`. -/
def config : Except RegistryError WebhookConfiguration := do
  let c : WebhookConfiguration := ⟨false, true, []⟩
  let c ← c.register "/hello_world" HandlerType.helloWorldWebhookHandler
  let c ← c.register "/feedback_form" HandlerType.userFeedbackHandler
  let c ← c.register "/new_goo" HandlerType.newGooOnSaveRuleHandler
  let c ← c.register "/eln/rule_test" HandlerType.experimentRuleHandler
  let c ← c.register "/eln/sample_aliquot_count"
    HandlerType.elnSampleAliquotRatioCountHandler
  let c ← c.register "/eln/create_new_steps" HandlerType.elnStepCreationHandler
  let c ← c.register "/eln/sample_creation" HandlerType.elnSampleCreationHandler
  c.register "/eln/bar_chart_creation" HandlerType.barChartDashboardCreationHandler

/- ### Lemmas about the step scans -/

/-- A protocol none of whose steps match the tag has no first step of that
type, wherever the scan starts. -/
theorem findStepFrom_eq_none (t : String) (l : List ElnEntryStep)
    (h : ∀ s ∈ l, stepMatches s t = false) :
    ∀ i, findStepFrom l i t = none := by
  induction l with
  | nil => intro i; rfl
  | cons step rest ih =>
    intro i
    rw [findStepFrom, if_neg]
    · exact ih (fun s hs => h s (List.mem_cons_of_mem _ hs)) (i + 1)
    · simp [h step (List.mem_cons_self step rest)]

/-- Soundness of the after-anchor scan: a hit lies strictly after the
anchor, matches the tag, is in the list, and is the first such hit. -/
theorem findStepAfter_some (a : Nat) (t : String) (l : List ElnEntryStep) :
    ∀ (i j : Nat) (s : ElnEntryStep),
      findStepAfter l i a t = some (j, s) →
      i ≤ j ∧ a < j ∧ stepMatches s t = true ∧ l[j - i]? = some s ∧
        ∀ k s', l[k - i]? = some s' → i ≤ k → a < k → k < j →
          stepMatches s' t = false := by
  induction l with
  | nil => intro i j s h; simp [findStepAfter] at h
  | cons step rest ih =>
    intro i j s h
    rw [findStepAfter] at h
    by_cases hc : a < i ∧ stepMatches step t = true
    · rw [if_pos hc] at h
      simp only [Option.some.injEq, Prod.mk.injEq] at h
      obtain ⟨rfl, rfl⟩ := h
      refine ⟨Nat.le_refl i, hc.1, hc.2, by simp, ?_⟩
      intro k s' _ hik _ hkj
      exact absurd (Nat.lt_of_le_of_lt hik hkj) (Nat.lt_irrefl i)
    · rw [if_neg hc] at h
      obtain ⟨h1, h2, h3, h4, h5⟩ := ih (i + 1) j s h
      have hij : i + 1 ≤ j := h1
      refine ⟨Nat.le_trans (Nat.le_succ i) h1, h2, h3, ?_, ?_⟩
      · have hji : j - i = (j - (i + 1)) + 1 := by omega
        rw [hji, List.getElem?_cons_succ]
        exact h4
      · intro k s' hget hik hak hkj
        rcases Nat.eq_or_lt_of_le hik with heq | hlt
        · have h0 : k - i = 0 := by omega
          rw [h0, List.getElem?_cons_zero] at hget
          have hs' : step = s' := by simpa using hget
          subst hs'
          cases hb : stepMatches step t with
          | false => rfl
          | true => exact absurd ⟨by omega, hb⟩ hc
        · have hki : k - i = (k - (i + 1)) + 1 := by omega
          rw [hki, List.getElem?_cons_succ] at hget
          exact h5 k s' hget (by omega) hak hkj

/-- Completeness of the after-anchor scan: when nothing after the anchor
matches, the scan comes back empty. -/
theorem findStepAfter_eq_none (a : Nat) (t : String) (l : List ElnEntryStep) :
    ∀ i, (∀ k s', l[k]? = some s' → a < i + k → stepMatches s' t = false) →
      findStepAfter l i a t = none := by
  induction l with
  | nil => intro i _; rfl
  | cons step rest ih =>
    intro i h
    rw [findStepAfter, if_neg]
    · apply ih (i + 1)
      intro k s' hget hak
      exact h (k + 1) s' (by simpa using hget) (by omega)
    · rintro ⟨hai, hm⟩
      have hstep := h 0 step (by simp) (by omega)
      simp [hm] at hstep

/-- An empty after-anchor scan means no step after the anchor matches. -/
theorem findStepAfter_none (a : Nat) (t : String) (l : List ElnEntryStep) :
    ∀ i, findStepAfter l i a t = none →
      ∀ k s', l[k]? = some s' → a < i + k → stepMatches s' t = false := by
  induction l with
  | nil => intro i _ k s' hget; simp at hget
  | cons step rest ih =>
    intro i h k s' hget hak
    rw [findStepAfter] at h
    by_cases hc : a < i ∧ stepMatches step t = true
    · rw [if_pos hc] at h
      exact Option.noConfusion h
    · rw [if_neg hc] at h
      cases k with
      | zero =>
        have hs' : step = s' := by simpa using hget
        subst hs'
        cases hb : stepMatches step t with
        | false => rfl
        | true => exact absurd ⟨by omega, hb⟩ hc
      | succ k =>
        exact ih (i + 1) h k s' (by simpa using hget) (by omega)

/- ### Fidelity of the float model -/

/-- The float model reproduces CPython's `str(m / n)` on sample quotients
spanning the shortest-repr lengths and both notations (values checked
against CPython 3: `str(1/3)`, `str(5/9)`, `str(10/3)`, `str(1/7)`,
`str(8/4)`, `str(1/100000)`, `str(10**16)`). -/
theorem pyFloatStr_matches_cpython_samples :
    pyFloatStr 1 3 = "0.3333333333333333" ∧
    pyFloatStr 5 9 = "0.5555555555555556" ∧
    pyFloatStr 10 3 = "3.3333333333333335" ∧
    pyFloatStr 1 7 = "0.14285714285714285" ∧
    pyFloatStr 8 4 = "2.0" ∧
    pyFloatStr 1 100000 = "1e-05" ∧
    pyFloatStr (10 ^ 16) 1 = "1e+16" := by decide

/- ### Lemma about lookup in an extended route table -/

/-- Looking a key up in an appended table skips a prefix in which the key
is unbound. -/
theorem lookup_append_of_none {β : Type} {l l' : List (String × β)} {k : String}
    (h : l.lookup k = none) : (l ++ l').lookup k = l'.lookup k := by
  induction l with
  | nil => simp
  | cons p rest ih =>
    obtain ⟨a, b⟩ := p
    cases hk : (k == a) with
    | false =>
      simp only [List.cons_append, List.lookup, hk] at h ⊢
      exact ih h
    | true =>
      simp [List.lookup, hk] at h

/- ### Claim theorems -/

/-- Claim C2: for every protocol, anchor position and type tag,
`nextStepOfType` returns only a step strictly after the anchor's position —
never the anchor itself or an earlier step, even a matching one — and it
returns the first match after the anchor, or absent when none exists. -/
theorem next_step_strictly_after_anchor
    (p : ElnExperimentProtocol) (anchor : Nat) (t : String) :
    (∀ j s, p.get_next_step anchor t = some (j, s) →
      anchor < j ∧ p.steps[j]? = some s ∧ stepMatches s t = true ∧
        ∀ k s', p.steps[k]? = some s' → anchor < k → k < j →
          stepMatches s' t = false) ∧
    (p.get_next_step anchor t = none →
      ∀ k s', p.steps[k]? = some s' → anchor < k → stepMatches s' t = false) := by
  constructor
  · intro j s h
    obtain ⟨_, h2, h3, h4, h5⟩ := findStepAfter_some anchor t p.steps 0 j s h
    refine ⟨h2, by simpa using h4, h3, ?_⟩
    intro k s' hget hak hkj
    exact h5 k s' (by simpa using hget) (Nat.zero_le k) hak hkj
  · intro h k s' hget hak
    exact findStepAfter_none anchor t p.steps 0 h k s' hget (by omega)

/-- Witness for C2 on a concrete protocol: with the anchor at position 0
(itself of type Sample), the next Sample step is found at position 2,
strictly after the anchor. -/
theorem next_step_strictly_after_anchor_witness :
    0 < 2 ∧
    (ElnExperimentProtocol.mk
      [⟨"Sample", []⟩, ⟨"Other", []⟩, ⟨"Sample", [⟨7⟩]⟩]).steps[2]? =
      some ⟨"Sample", [⟨7⟩]⟩ := by
  have h := (next_step_strictly_after_anchor
    ⟨[⟨"Sample", []⟩, ⟨"Other", []⟩, ⟨"Sample", [⟨7⟩]⟩]⟩ 0 "Sample").1
    2 ⟨"Sample", [⟨7⟩]⟩ (by decide)
  exact ⟨h.1, h.2.1⟩

/-- Claim C1 (refuted: code bug): with a source Sample step holding zero
records and a later Sample step present, the aliquot-ratio handler does not
guard the division — it reaches the division by the zero source count and
raises `ZeroDivisionError` instead of reporting a guarded message. -/
theorem ratio_handler_zero_source_raises :
    ElnSampleAliquotRatioCountHandler.run
      ⟨none, some ⟨[⟨"Sample", []⟩, ⟨"Sample", [⟨0⟩]⟩]⟩, none, [], none, []⟩ =
      Except.error PyError.zeroDivisionError := by decide

/-- Claim C5 (refuted as stated): with a source Sample step of 3 records
and a later Sample step of 1 record the program displays
`0.3333333333333333` — the shortest repr of the binary64 double nearest to
1/3 — and the rational that string denotes, 3333333333333333 / 10^16, is
not exactly M/N = 1/3.  So the display text does not encode exactly the
value M/N. -/
theorem ratio_handler_exact_encoding_refuted :
    ElnSampleAliquotRatioCountHandler.run
      ⟨none, some ⟨[⟨"Sample", [⟨0⟩, ⟨1⟩, ⟨2⟩]⟩, ⟨"Sample", [⟨0⟩]⟩]⟩,
        none, [], none, []⟩ =
      Except.ok ⟨true, none,
        some "The aliquot to sample ratio is: 0.3333333333333333"⟩ ∧
    decodeDecimal "0.3333333333333333" = some (3333333333333333, 10 ^ 16) ∧
    3333333333333333 * 3 ≠ 1 * 10 ^ 16 := by decide

/-- Claim C5 (amended): when the source Sample step holds N>0 records and
a Sample step strictly after it holds M records, the display text encodes
the IEEE-754 binary64 double nearest to M/N, rendered as CPython's
shortest round-trip float repr; this equals M/N exactly whenever M/N is
representable as a double — in particular with N=8 and M=4 the text
encodes 0.5 (see the witness). -/
theorem ratio_handler_encodes_nearest_double
    (context : SapioWebhookContext) (p : ElnExperimentProtocol)
    (i j : Nat) (src aliq : ElnEntryStep)
    (hp : context.active_protocol = some p)
    (hsrc : p.get_first_step_of_type "Sample" = some (i, src))
    (haliq : p.get_next_step i "Sample" = some (j, aliq))
    (hn : src.records.length ≠ 0) :
    ElnSampleAliquotRatioCountHandler.run context =
      Except.ok ⟨true, none, some ("The aliquot to sample ratio is: " ++
        reprFloat (roundFloat aliq.records.length src.records.length))⟩ := by
  simp [ElnSampleAliquotRatioCountHandler.run, hp, hsrc, haliq, hn,
    ElnEntryStep.get_records, pyFloatStr]

/-- Witness for C5: a protocol with a Sample step of 8 records followed by
a Sample step of 4 records makes the handler display the ratio 0.5 (4/8 is
exactly representable, so the nearest double is exactly M/N here). -/
theorem ratio_handler_encodes_nearest_double_witness :
    ElnSampleAliquotRatioCountHandler.run
      ⟨none, some ⟨[⟨"Sample", (List.range 8).map DataRecord.mk⟩,
        ⟨"Sample", (List.range 4).map DataRecord.mk⟩]⟩, none, [], none, []⟩ =
      Except.ok ⟨true, none, some "The aliquot to sample ratio is: 0.5"⟩ := by
  have h := ratio_handler_encodes_nearest_double
    ⟨none, some ⟨[⟨"Sample", (List.range 8).map DataRecord.mk⟩,
      ⟨"Sample", (List.range 4).map DataRecord.mk⟩]⟩, none, [], none, []⟩
    ⟨[⟨"Sample", (List.range 8).map DataRecord.mk⟩,
      ⟨"Sample", (List.range 4).map DataRecord.mk⟩]⟩
    0 1
    ⟨"Sample", (List.range 8).map DataRecord.mk⟩
    ⟨"Sample", (List.range 4).map DataRecord.mk⟩
    rfl (by decide) (by decide) (by decide)
  rw [h]
  decide

/-- Claim C9: with no Sample-type step at all the handler succeeds with the
no-source message; with a source Sample step but no Sample step after it,
it succeeds with the no-aliquot message; neither absence raises an error. -/
theorem ratio_handler_absent_steps_messages
    (context : SapioWebhookContext) (p : ElnExperimentProtocol)
    (hp : context.active_protocol = some p) :
    ((∀ s ∈ p.steps, stepMatches s "Sample" = false) →
      ElnSampleAliquotRatioCountHandler.run context =
        Except.ok ⟨true, none, some "There are no source sample table."⟩) ∧
    (∀ i src, p.get_first_step_of_type "Sample" = some (i, src) →
      (∀ k s', p.steps[k]? = some s' → i < k → stepMatches s' "Sample" = false) →
      ElnSampleAliquotRatioCountHandler.run context =
        Except.ok ⟨true, none, some "There are no aliquot sample table."⟩) := by
  constructor
  · intro h
    have hnone : p.get_first_step_of_type "Sample" = none :=
      findStepFrom_eq_none "Sample" p.steps h 0
    simp [ElnSampleAliquotRatioCountHandler.run, hp, hnone]
  · intro i src hfirst hafter
    have hnext : p.get_next_step i "Sample" = none := by
      apply findStepAfter_eq_none i "Sample" p.steps 0
      intro k s' hget hik
      exact hafter k s' hget (by omega)
    simp [ElnSampleAliquotRatioCountHandler.run, hp, hfirst, hnext]

/-- Witness for C9: a protocol with no Sample step gives the no-source
message; a protocol whose only Sample step is first gives the no-aliquot
message. -/
theorem ratio_handler_absent_steps_messages_witness :
    ElnSampleAliquotRatioCountHandler.run
      ⟨none, some ⟨[⟨"Other", []⟩]⟩, none, [], none, []⟩ =
      Except.ok ⟨true, none, some "There are no source sample table."⟩ ∧
    ElnSampleAliquotRatioCountHandler.run
      ⟨none, some ⟨[⟨"Sample", [⟨0⟩]⟩, ⟨"Other", []⟩]⟩, none, [], none, []⟩ =
      Except.ok ⟨true, none, some "There are no aliquot sample table."⟩ := by
  constructor
  · exact (ratio_handler_absent_steps_messages
      ⟨none, some ⟨[⟨"Other", []⟩]⟩, none, [], none, []⟩
      ⟨[⟨"Other", []⟩]⟩ rfl).1 (by decide)
  · refine (ratio_handler_absent_steps_messages
      ⟨none, some ⟨[⟨"Sample", [⟨0⟩]⟩, ⟨"Other", []⟩]⟩, none, [], none, []⟩
      ⟨[⟨"Sample", [⟨0⟩]⟩, ⟨"Other", []⟩]⟩ rfl).2 0 ⟨"Sample", [⟨0⟩]⟩
      (by decide) ?_
    intro k s' hget hk
    match k, hget with
    | 1, hget =>
      have hs' : s' = ⟨"Other", []⟩ := by simpa using hget.symm
      subst hs'
      decide
    | n + 2, hget => simp at hget

/-- Claim C3: with no prior callback result (round 1), the feedback handler
succeeds, performs no final business effect (no display text, no record
operation in this branch), and requests a form with exactly two fields in
order: `Feeling` (boolean, required) and `Comments` (string, not required,
max length 2000). -/
theorem feedback_round_one_form
    (context : SapioWebhookContext)
    (h : context.client_callback_result = none) :
    (UserFeedbackHandler.run context).passed = true ∧
    (UserFeedbackHandler.run context).display_text = none ∧
    ∃ req, (UserFeedbackHandler.run context).client_callback_request = some req ∧
      req.data_type.fields.length = 2 ∧
      (∃ f, req.data_type.fields[0]? = some f ∧
        f.data_field_name = "Feeling" ∧
        f.field_type = VeloxFieldType.BOOLEAN ∧ f.required = true) ∧
      (∃ f, req.data_type.fields[1]? = some f ∧
        f.data_field_name = "Comments" ∧
        f.field_type = VeloxFieldType.STRING ∧ f.required = false ∧
        f.max_length = some 2000) := by
  have hr : UserFeedbackHandler.run context =
      UserFeedbackHandler.run ⟨none, none, none, [], none, []⟩ := by
    unfold UserFeedbackHandler.run
    rw [h]
  rw [hr]
  refine ⟨by decide, by decide,
    ⟨"Feedback", "Please provide us with some feedback!",
      ⟨"Default",
        [⟨"Default", VeloxFieldType.BOOLEAN, "Feeling", "Are you feeling well?",
          true, true, none, some false⟩,
         ⟨"Default", VeloxFieldType.STRING, "Comments", "Additional Comments",
          false, true, some 2000, none⟩]⟩⟩,
    by decide, by decide,
    ⟨⟨"Default", VeloxFieldType.BOOLEAN, "Feeling", "Are you feeling well?",
      true, true, none, some false⟩, by decide, by decide, by decide, by decide⟩,
    ⟨⟨"Default", VeloxFieldType.STRING, "Comments", "Additional Comments",
      false, true, some 2000, none⟩, by decide, by decide, by decide, by decide,
      by decide⟩⟩

/-- Witness for C3 at the empty round-1 context. -/
theorem feedback_round_one_form_witness :
    (UserFeedbackHandler.run ⟨none, none, none, [], none, []⟩).passed = true ∧
    (UserFeedbackHandler.run ⟨none, none, none, [], none, []⟩).display_text =
      none := by
  have h := feedback_round_one_form ⟨none, none, none, [], none, []⟩ rfl
  exact ⟨h.1, h.2.1⟩

/-- Claim C4: a prior callback result with the cancellation flag set makes
the feedback handler return the distinct cancellation message, with no new
callback request, regardless of the response map's contents (the map is
never interpreted: the result is the same constant for every map). -/
theorem feedback_cancelled_short_circuits
    (context : SapioWebhookContext) (form_result : FormEntryDialogResult)
    (h : context.client_callback_result = some form_result)
    (hc : form_result.user_cancelled = true) :
    UserFeedbackHandler.run context =
      ⟨true, none, some "You have Cancelled!"⟩ := by
  unfold UserFeedbackHandler.run
  rw [h]
  simp [hc]

/-- Witness for C4 at a cancelled result whose map even binds `Feeling`. -/
theorem feedback_cancelled_short_circuits_witness :
    UserFeedbackHandler.run
      ⟨some ⟨true, [("Feeling", PyValue.pyBool true)]⟩, none, none, [], none, []⟩ =
      ⟨true, none, some "You have Cancelled!"⟩ :=
  feedback_cancelled_short_circuits
    ⟨some ⟨true, [("Feeling", PyValue.pyBool true)]⟩, none, none, [], none, []⟩
    ⟨true, [("Feeling", PyValue.pyBool true)]⟩ rfl rfl

/-- Claim C8: a prior callback result with cancellation false and `Feeling`
bound to true makes the feedback handler produce the final positive
completion message with no further callback request. -/
theorem feedback_feeling_true_completes
    (context : SapioWebhookContext) (form_result : FormEntryDialogResult)
    (h : context.client_callback_result = some form_result)
    (hc : form_result.user_cancelled = false)
    (hf : dictGet form_result.user_response_map "Feeling" =
      some (PyValue.pyBool true)) :
    UserFeedbackHandler.run context =
      ⟨true, none, some "User felt very good! Nothing to do here..."⟩ := by
  unfold UserFeedbackHandler.run
  rw [h]
  simp [hc, hf, pyTruthy]

/-- Witness for C8 at a concrete round-2 context answering `Feeling: true`. -/
theorem feedback_feeling_true_completes_witness :
    UserFeedbackHandler.run
      ⟨some ⟨false, [("Feeling", PyValue.pyBool true)]⟩, none, none, [], none, []⟩ =
      ⟨true, none, some "User felt very good! Nothing to do here..."⟩ :=
  feedback_feeling_true_completes
    ⟨some ⟨false, [("Feeling", PyValue.pyBool true)]⟩, none, none, [], none, []⟩
    ⟨false, [("Feeling", PyValue.pyBool true)]⟩ rfl rfl (by decide)

/-- Claim C7: the hello-world handler is stateless: on every context it
returns success with no callback request and no display text, and any two
contexts produce the same result. -/
theorem hello_world_context_independent
    (c c' : SapioWebhookContext) :
    HelloWorldWebhookHandler.run c = ⟨true, none, none⟩ ∧
    (HelloWorldWebhookHandler.run c).client_callback_request = none ∧
    HelloWorldWebhookHandler.run c = HelloWorldWebhookHandler.run c' :=
  ⟨rfl, rfl, rfl⟩

/-- Claim C6: registering an already-bound path fails with
`DuplicatePathError`; `resolve` returns the bound handler type for a bound
path and fails with `UnknownRouteError` for an absent one; a fresh
registration makes the path resolve to the registered handler; and over the
tutorial's fixed table every registered path resolves to its handler while
re-registering one of them fails. -/
theorem register_resolve_contract :
    (∀ (cfg : WebhookConfiguration) (path : String) (h h' : HandlerType),
      (cfg.routes.lookup path = some h →
        cfg.register path h' = Except.error RegistryError.duplicatePathError ∧
        cfg.resolve path = Except.ok h) ∧
      (cfg.routes.lookup path = none →
        cfg.resolve path = Except.error RegistryError.unknownRouteError ∧
        ∀ cfg2, cfg.register path h' = Except.ok cfg2 →
          cfg2.resolve path = Except.ok h')) ∧
    (config >>= fun c => c.resolve "/hello_world") =
      Except.ok HandlerType.helloWorldWebhookHandler ∧
    (config >>= fun c => c.resolve "/feedback_form") =
      Except.ok HandlerType.userFeedbackHandler ∧
    (config >>= fun c => c.resolve "/new_goo") =
      Except.ok HandlerType.newGooOnSaveRuleHandler ∧
    (config >>= fun c => c.resolve "/eln/rule_test") =
      Except.ok HandlerType.experimentRuleHandler ∧
    (config >>= fun c => c.resolve "/eln/sample_aliquot_count") =
      Except.ok HandlerType.elnSampleAliquotRatioCountHandler ∧
    (config >>= fun c => c.resolve "/eln/create_new_steps") =
      Except.ok HandlerType.elnStepCreationHandler ∧
    (config >>= fun c => c.resolve "/eln/sample_creation") =
      Except.ok HandlerType.elnSampleCreationHandler ∧
    (config >>= fun c => c.resolve "/eln/bar_chart_creation") =
      Except.ok HandlerType.barChartDashboardCreationHandler ∧
    (config >>= fun c => c.resolve "/unregistered") =
      Except.error RegistryError.unknownRouteError ∧
    (config >>= fun c => c.register "/hello_world" HandlerType.userFeedbackHandler) =
      Except.error RegistryError.duplicatePathError := by
  refine ⟨?_, by decide, by decide, by decide, by decide, by decide, by decide,
    by decide, by decide, by decide, by decide⟩
  intro cfg path h h'
  constructor
  · intro hb
    constructor
    · unfold WebhookConfiguration.register
      rw [hb]
      rfl
    · unfold WebhookConfiguration.resolve
      rw [hb]
  · intro hb
    constructor
    · unfold WebhookConfiguration.resolve
      rw [hb]
    · intro cfg2 hreg
      unfold WebhookConfiguration.register at hreg
      rw [hb] at hreg
      simp only [Option.isSome_none, Bool.false_eq_true, if_false,
        Except.ok.injEq] at hreg
      subst hreg
      unfold WebhookConfiguration.resolve
      rw [lookup_append_of_none hb]
      simp [List.lookup]

/-- Witness for C6 at concrete one-entry and empty tables. -/
theorem register_resolve_contract_witness :
    WebhookConfiguration.register
      ⟨false, true, [("/x", HandlerType.userFeedbackHandler)]⟩ "/x"
      HandlerType.helloWorldWebhookHandler =
      Except.error RegistryError.duplicatePathError ∧
    WebhookConfiguration.resolve
      ⟨false, true, [("/x", HandlerType.userFeedbackHandler)]⟩ "/x" =
      Except.ok HandlerType.userFeedbackHandler ∧
    WebhookConfiguration.resolve (⟨false, true, []⟩ : WebhookConfiguration)
      "/y" = Except.error RegistryError.unknownRouteError ∧
    WebhookConfiguration.resolve
      ⟨false, true, [("/y", HandlerType.helloWorldWebhookHandler)]⟩ "/y" =
      Except.ok HandlerType.helloWorldWebhookHandler := by
  have h1 := (register_resolve_contract.1
    ⟨false, true, [("/x", HandlerType.userFeedbackHandler)]⟩ "/x"
    HandlerType.userFeedbackHandler HandlerType.helloWorldWebhookHandler).1
    (by decide)
  have h2 := (register_resolve_contract.1
    (⟨false, true, []⟩ : WebhookConfiguration) "/y"
    HandlerType.helloWorldWebhookHandler HandlerType.helloWorldWebhookHandler).2
    (by decide)
  exact ⟨h1.1, h1.2, h2.1,
    h2.2 ⟨false, true, [("/y", HandlerType.helloWorldWebhookHandler)]⟩
      (by decide)⟩

/-- Every branch of the feedback handler returns a passing result. -/
theorem userFeedback_passed (c : SapioWebhookContext) :
    (UserFeedbackHandler.run c).passed = true := by
  unfold UserFeedbackHandler.run
  split
  · split <;> rfl
  · rfl

/-- Claim C10: for every handler in the program and every context on which
its `run` completes without raising, the returned result's success flag is
true; no branch ever constructs a failing result. -/
theorem all_handlers_passed (c : SapioWebhookContext) :
    (HelloWorldWebhookHandler.run c).passed = true ∧
    (UserFeedbackHandler.run c).passed = true ∧
    (NewGooOnSaveRuleHandler.run c).passed = true ∧
    (∀ r, ExperimentRuleHandler.run c = Except.ok r → r.passed = true) ∧
    (∀ r, ElnSampleAliquotRatioCountHandler.run c = Except.ok r →
      r.passed = true) ∧
    (∀ r, ElnStepCreationHandler.run c = Except.ok r → r.passed = true) ∧
    (∀ r, ElnSampleCreationHandler.run c = Except.ok r → r.passed = true) ∧
    (∀ r, BarChartDashboardCreationHandler.run c = Except.ok r →
      r.passed = true) := by
  refine ⟨rfl, userFeedback_passed c, rfl, ?_, ?_, ?_, ?_, ?_⟩
  · intro r hr
    unfold ExperimentRuleHandler.run at hr
    repeat' split at hr
    all_goals first
      | exact Except.noConfusion hr
      | (simp only [Except.ok.injEq] at hr; rw [← hr])
  · intro r hr
    unfold ElnSampleAliquotRatioCountHandler.run at hr
    repeat' split at hr
    all_goals first
      | exact Except.noConfusion hr
      | (simp only [Except.ok.injEq] at hr; rw [← hr])
      | (dsimp only [] at hr; split at hr <;>
          first
            | exact Except.noConfusion hr
            | (simp only [Except.ok.injEq] at hr; rw [← hr]))
  · intro r hr
    unfold ElnStepCreationHandler.run at hr
    repeat' split at hr
    all_goals first
      | exact Except.noConfusion hr
      | (simp only [Except.ok.injEq] at hr; rw [← hr])
  · intro r hr
    unfold ElnSampleCreationHandler.run at hr
    repeat' split at hr
    all_goals first
      | exact Except.noConfusion hr
      | (simp only [Except.ok.injEq] at hr; rw [← hr])
  · intro r hr
    unfold BarChartDashboardCreationHandler.run at hr
    repeat' split at hr
    all_goals first
      | exact Except.noConfusion hr
      | (simp only [Except.ok.injEq] at hr; rw [← hr])

/-- Witness for C10 at a context on which every fallible handler completes
without raising. -/
theorem all_handlers_passed_witness :
    (HelloWorldWebhookHandler.run
      ⟨none, some ⟨[]⟩, some ⟨0, "Exp"⟩, [⟨0, "entry"⟩], none, []⟩).passed =
      true ∧
    (SapioWebhookResult.mk true none none).passed = true ∧
    (SapioWebhookResult.mk true none
      (some "There are no source sample table.")).passed = true ∧
    (SapioWebhookResult.mk true none
      (some "There are no sample step. Create it first.")).passed = true := by
  have h := all_handlers_passed
    ⟨none, some ⟨[]⟩, some ⟨0, "Exp"⟩, [⟨0, "entry"⟩], none, []⟩
  exact ⟨h.1, h.2.2.2.1 ⟨true, none, none⟩ (by decide),
    h.2.2.2.2.1 ⟨true, none, some "There are no source sample table."⟩
      (by decide),
    h.2.2.2.2.2.2.2 ⟨true, none, some "There are no sample step. Create it first."⟩
      (by decide)⟩

end SapioTutorial
